import Mathlib

set_option maxHeartbeats 1000000

/-! Shallow embedding of the TinyReflowController firmware control loop
(src/TinyReflowController.cpp, version 2.10, `VERSION == 2` build).

Modelling conventions:
* `millis()` is modelled as one monotonic `Nat` reading per loop cycle
  (`CycleIn.now`): the microseconds between the calls inside a single
  iteration of `loop()` are below the millisecond resolution of the clock.
  Likewise the two `thermocouple.readFault()` calls that can occur inside
  one iteration (sampling branch and `REFLOW_STATE_ERROR` branch) sample
  the same hardware register and are modelled as one per-cycle value
  (`CycleIn.fault`).
* The `double` variables `setpoint` and `input` only ever hold and compare
  exact small integer values in the control logic, so they are modelled as
  `Int`; the PID tunings need fractional constants and are modelled as `ℚ`.
* External collaborators (MAX31856 sensor, PID library, EEPROM, raw switch
  pins) are modelled as per-cycle inputs (`CycleIn`) and recorded
  configuration state (`pidTunings`, `pidMode`, `eeprom`).  The PID output
  produced by `reflowOvenPID.Compute()` is the per-cycle input
  `CycleIn.pidOut`, latched into the `output` field.
* Display rendering, serial printing and the LED heart-beat have no
  feedback into the control state and are omitted. -/

inductive reflowState_t : Type
  | REFLOW_STATE_IDLE
  | REFLOW_STATE_PREHEAT
  | REFLOW_STATE_SOAK
  | REFLOW_STATE_REFLOW
  | REFLOW_STATE_COOL
  | REFLOW_STATE_COMPLETE
  | REFLOW_STATE_TOO_HOT
  | REFLOW_STATE_ERROR
  | REFLOW_STATE_BAKE
  deriving DecidableEq

inductive reflowStatus_t : Type
  | REFLOW_STATUS_OFF
  | REFLOW_STATUS_ON
  deriving DecidableEq

inductive switch_t : Type
  | SWITCH_NONE
  | SWITCH_1
  | SWITCH_2
  deriving DecidableEq

inductive debounceState_t : Type
  | DEBOUNCE_STATE_IDLE
  | DEBOUNCE_STATE_CHECK
  | DEBOUNCE_STATE_RELEASE
  deriving DecidableEq

inductive reflowProfile_t : Type
  | REFLOW_PROFILE_LEADFREE
  | REFLOW_PROFILE_LEADED
  | REFLOW_PROFILE_BAKE
  deriving DecidableEq

open reflowState_t reflowStatus_t switch_t debounceState_t reflowProfile_t

/-- General profile constants (lines 186-192 of the source). -/
def TEMPERATURE_ROOM : Int := 50

def TEMPERATURE_SOAK_MIN : Int := 150

def TEMPERATURE_COOL_MIN : Int := 100

def SENSOR_SAMPLING_TIME : Nat := 1000

def SOAK_TEMPERATURE_STEP : Int := 5

/-- Lead-free profile constants (lines 194-197). -/
def TEMPERATURE_SOAK_MAX_LF : Int := 200

def TEMPERATURE_REFLOW_MAX_LF : Int := 250

def SOAK_MICRO_PERIOD_LF : Nat := 9000

/-- Leaded profile constants (lines 199-202). -/
def TEMPERATURE_SOAK_MAX_PB : Int := 180

def TEMPERATURE_REFLOW_MAX_PB : Int := 224

def SOAK_MICRO_PERIOD_PB : Nat := 10000

/-- Bake profile constant (line 205). -/
def TEMPERATURE_BAKE : Int := 120

/-- Switch debounce constant (line 208). -/
def DEBOUNCE_PERIOD_MIN : Nat := 100

/-- PID control window size, set once in `setup()` (line 441). -/
def windowSize : Nat := 2000

/-- Fault bit values of the MAX31856 sensor library (`Adafruit_MAX31856.h`),
referenced at lines 466-473 and 815-822. -/
def MAX31856_FAULT_CJRANGE : Nat := 0x80

def MAX31856_FAULT_TCRANGE : Nat := 0x40

def MAX31856_FAULT_CJHIGH : Nat := 0x20

def MAX31856_FAULT_CJLOW : Nat := 0x10

def MAX31856_FAULT_TCHIGH : Nat := 0x08

def MAX31856_FAULT_TCLOW : Nat := 0x04

def MAX31856_FAULT_OVUV : Nat := 0x02

def MAX31856_FAULT_OPEN : Nat := 0x01

/-- PID tuning triple, as handed to `reflowOvenPID.SetTunings`. -/
structure PIDTunings where
  kp : ℚ
  ki : ℚ
  kd : ℚ
  deriving DecidableEq

def PID_KP_PREHEAT : ℚ := 100

def PID_KI_PREHEAT : ℚ := 0.025

def PID_KD_PREHEAT : ℚ := 20

def PID_KP_SOAK : ℚ := 300

def PID_KI_SOAK : ℚ := 0.05

def PID_KD_SOAK : ℚ := 250

def PID_KP_REFLOW : ℚ := 300

def PID_KI_REFLOW : ℚ := 0.05

def PID_KD_REFLOW : ℚ := 350

def PID_KP_BAKE : ℚ := 100

def PID_KI_BAKE : ℚ := 0.07

def PID_KD_BAKE : ℚ := 20

def preheatTunings : PIDTunings := ⟨PID_KP_PREHEAT, PID_KI_PREHEAT, PID_KD_PREHEAT⟩

def soakTunings : PIDTunings := ⟨PID_KP_SOAK, PID_KI_SOAK, PID_KD_SOAK⟩

def reflowTunings : PIDTunings := ⟨PID_KP_REFLOW, PID_KI_REFLOW, PID_KD_REFLOW⟩

def bakeTunings : PIDTunings := ⟨PID_KP_BAKE, PID_KI_BAKE, PID_KD_BAKE⟩

/-- The mutable state of the controller: the module-level variables of the
source (lines 291-333) that feed back into the control logic, plus the two
boolean outputs (`ssr`, `buzzer`) and the EEPROM byte at
`PROFILE_TYPE_ADDRESS` as recorded effects. -/
structure Controller where
  setpoint : Int
  input : Int
  output : Int
  windowStartTime : Nat
  nextCheck : Nat
  nextRead : Nat
  timerSoak : Nat
  buzzerPeriod : Nat
  soakTemperatureMax : Int
  reflowTemperatureMax : Int
  soakMicroPeriod : Nat
  reflowState : reflowState_t
  reflowStatus : reflowStatus_t
  reflowProfile : reflowProfile_t
  debounceState : debounceState_t
  lastDebounceTime : Nat
  switchStatus : switch_t
  switchValue : switch_t
  switchMask : switch_t
  timerSeconds : Nat
  fault : Nat
  pidTunings : PIDTunings
  pidMode : Bool
  eeprom : Nat
  ssr : Bool
  buzzer : Bool
  deriving DecidableEq

/-- The values delivered by the external collaborators during one iteration
of `loop()`: the clock, the thermocouple temperature and fault register,
the raw switch reading and the PID output. -/
structure CycleIn where
  now : Nat
  temp : Int
  fault : Nat
  rawSwitch : switch_t
  pidOut : Int
  deriving DecidableEq

/-- Fault predicate of lines 466-473 (identical at 815-822): any bit set
among the eight listed MAX31856 fault categories. -/
def faultCheck (f : Nat) : Bool :=
  (f &&& MAX31856_FAULT_CJRANGE != 0) || (f &&& MAX31856_FAULT_TCRANGE != 0) ||
  (f &&& MAX31856_FAULT_CJHIGH != 0) || (f &&& MAX31856_FAULT_CJLOW != 0) ||
  (f &&& MAX31856_FAULT_TCHIGH != 0) || (f &&& MAX31856_FAULT_TCLOW != 0) ||
  (f &&& MAX31856_FAULT_OVUV != 0) || (f &&& MAX31856_FAULT_OPEN != 0)

/-- Thermocouple sampling block, lines 455-480: every `SENSOR_SAMPLING_TIME`
read temperature and fault register; on any listed fault force
`REFLOW_STATE_ERROR` and `REFLOW_STATUS_OFF`.  Each branch of the embedding
performs, in one record update, exactly the assignments executed on that
control path of the source. -/
def sensorStep (s : Controller) (i : CycleIn) : Controller :=
  if i.now > s.nextRead then
    if faultCheck i.fault then
      { s with nextRead := s.nextRead + SENSOR_SAMPLING_TIME,
               input := i.temp, fault := i.fault,
               reflowState := REFLOW_STATE_ERROR, reflowStatus := REFLOW_STATUS_OFF }
    else
      { s with nextRead := s.nextRead + SENSOR_SAMPLING_TIME,
               input := i.temp, fault := i.fault }
  else s

/-- Heart-beat / serial-log block, lines 482-507: every second, while the
process is on, advance `timerSeconds` (the serial record and LED toggle are
pure output). -/
def checkStep (s : Controller) (i : CycleIn) : Controller :=
  if i.now > s.nextCheck then
    if s.reflowStatus = REFLOW_STATUS_ON then
      { s with nextCheck := s.nextCheck + SENSOR_SAMPLING_TIME,
               timerSeconds := s.timerSeconds + 1 }
    else
      { s with nextCheck := s.nextCheck + SENSOR_SAMPLING_TIME }
  else s

/-- Reflow oven controller state machine, lines 656-838 (`switch (reflowState)`).
Each branch performs, in one record update, exactly the assignments executed
on that control path of the source (in the `SOAK` case the source first runs
`setpoint += SOAK_TEMPERATURE_STEP` and then tests `setpoint >
soakTemperatureMax`, so the flattened condition reads
`s.setpoint + SOAK_TEMPERATURE_STEP > s.soakTemperatureMax`). -/
def seqStep (s : Controller) (i : CycleIn) : Controller :=
  match s.reflowState with
  | REFLOW_STATE_IDLE =>
      if s.input ≥ TEMPERATURE_ROOM then
        { s with reflowState := REFLOW_STATE_TOO_HOT }
      else if s.switchStatus = SWITCH_1 then
        if s.reflowProfile = REFLOW_PROFILE_BAKE then
          { s with timerSeconds := 0, windowStartTime := i.now,
                   setpoint := TEMPERATURE_BAKE, pidMode := true,
                   reflowState := REFLOW_STATE_BAKE }
        else if s.reflowProfile = REFLOW_PROFILE_LEADFREE then
          { s with timerSeconds := 0, windowStartTime := i.now,
                   setpoint := TEMPERATURE_SOAK_MIN,
                   soakTemperatureMax := TEMPERATURE_SOAK_MAX_LF,
                   reflowTemperatureMax := TEMPERATURE_REFLOW_MAX_LF,
                   soakMicroPeriod := SOAK_MICRO_PERIOD_LF,
                   pidMode := true, reflowState := REFLOW_STATE_PREHEAT }
        else
          { s with timerSeconds := 0, windowStartTime := i.now,
                   setpoint := TEMPERATURE_SOAK_MIN,
                   soakTemperatureMax := TEMPERATURE_SOAK_MAX_PB,
                   reflowTemperatureMax := TEMPERATURE_REFLOW_MAX_PB,
                   soakMicroPeriod := SOAK_MICRO_PERIOD_PB,
                   pidMode := true, reflowState := REFLOW_STATE_PREHEAT }
      else s
  | REFLOW_STATE_PREHEAT =>
      if s.input ≥ TEMPERATURE_SOAK_MIN then
        { s with reflowStatus := REFLOW_STATUS_ON,
                 timerSoak := i.now + s.soakMicroPeriod,
                 pidTunings := soakTunings,
                 setpoint := TEMPERATURE_SOAK_MIN + SOAK_TEMPERATURE_STEP,
                 reflowState := REFLOW_STATE_SOAK }
      else
        { s with reflowStatus := REFLOW_STATUS_ON }
  | REFLOW_STATE_SOAK =>
      if i.now > s.timerSoak then
        if s.setpoint + SOAK_TEMPERATURE_STEP > s.soakTemperatureMax then
          { s with timerSoak := i.now + s.soakMicroPeriod,
                   pidTunings := reflowTunings,
                   setpoint := s.reflowTemperatureMax,
                   reflowState := REFLOW_STATE_REFLOW }
        else
          { s with timerSoak := i.now + s.soakMicroPeriod,
                   setpoint := s.setpoint + SOAK_TEMPERATURE_STEP }
      else s
  | REFLOW_STATE_REFLOW =>
      if s.input ≥ s.reflowTemperatureMax - 5 then
        { s with pidTunings := reflowTunings,
                 setpoint := TEMPERATURE_COOL_MIN,
                 reflowState := REFLOW_STATE_COOL }
      else s
  | REFLOW_STATE_COOL =>
      if s.input ≤ TEMPERATURE_COOL_MIN then
        { s with buzzerPeriod := i.now + 1000, buzzer := true,
                 reflowStatus := REFLOW_STATUS_OFF,
                 reflowState := REFLOW_STATE_COMPLETE }
      else s
  | REFLOW_STATE_COMPLETE =>
      if i.now > s.buzzerPeriod then
        { s with buzzer := false, reflowState := REFLOW_STATE_IDLE }
      else s
  | REFLOW_STATE_TOO_HOT =>
      if s.input < TEMPERATURE_ROOM then
        { s with reflowState := REFLOW_STATE_IDLE }
      else s
  | REFLOW_STATE_ERROR =>
      if faultCheck i.fault then
        { s with fault := i.fault, reflowState := REFLOW_STATE_ERROR }
      else
        { s with fault := i.fault, reflowState := REFLOW_STATE_IDLE }
  | REFLOW_STATE_BAKE =>
      { s with reflowStatus := REFLOW_STATUS_ON, pidTunings := bakeTunings }

/-- Cross-cutting switch handling, lines 840-882: `SWITCH_1` cancels a
running process, `SWITCH_2` cycles (and persists) the profile while idle,
then the consumed press is cleared. -/
def switchHandle (s : Controller) : Controller :=
  if s.switchStatus = SWITCH_1 then
    if s.reflowStatus = REFLOW_STATUS_ON then
      { s with reflowStatus := REFLOW_STATUS_OFF, reflowState := REFLOW_STATE_IDLE,
               switchStatus := SWITCH_NONE }
    else
      { s with switchStatus := SWITCH_NONE }
  else if s.switchStatus = SWITCH_2 then
    if s.reflowState = REFLOW_STATE_IDLE then
      if s.reflowProfile = REFLOW_PROFILE_LEADFREE then
        { s with reflowProfile := REFLOW_PROFILE_LEADED, eeprom := 1,
                 switchStatus := SWITCH_NONE }
      else if s.reflowProfile = REFLOW_PROFILE_LEADED then
        { s with reflowProfile := REFLOW_PROFILE_BAKE, eeprom := 2,
                 switchStatus := SWITCH_NONE }
      else
        { s with reflowProfile := REFLOW_PROFILE_LEADFREE, eeprom := 0,
                 switchStatus := SWITCH_NONE }
    else
      { s with switchStatus := SWITCH_NONE }
  else
    { s with switchStatus := SWITCH_NONE }

/-- Switch debounce state machine, lines 884-934. -/
def debouncePhase (s : Controller) (i : CycleIn) : Controller :=
  match s.debounceState with
  | DEBOUNCE_STATE_IDLE =>
      if i.rawSwitch ≠ SWITCH_NONE then
        { s with switchStatus := SWITCH_NONE, switchValue := i.rawSwitch,
                 switchMask := i.rawSwitch, lastDebounceTime := i.now,
                 debounceState := DEBOUNCE_STATE_CHECK }
      else
        { s with switchStatus := SWITCH_NONE, switchValue := i.rawSwitch }
  | DEBOUNCE_STATE_CHECK =>
      if i.rawSwitch = s.switchMask then
        if i.now - s.lastDebounceTime > DEBOUNCE_PERIOD_MIN then
          { s with switchValue := i.rawSwitch, switchStatus := s.switchMask,
                   debounceState := DEBOUNCE_STATE_RELEASE }
        else
          { s with switchValue := i.rawSwitch }
      else
        { s with switchValue := i.rawSwitch, debounceState := DEBOUNCE_STATE_IDLE }
  | DEBOUNCE_STATE_RELEASE =>
      if i.rawSwitch = SWITCH_NONE then
        { s with switchValue := i.rawSwitch, debounceState := DEBOUNCE_STATE_IDLE }
      else
        { s with switchValue := i.rawSwitch }

/-- PID computation and SSR control, lines 936-955: while the process is on,
latch the PID output, shift the relay window by whole `windowSize` steps,
and drive the SSR for the `output` head of the window; otherwise force the
SSR off. -/
def ssrPhase (s : Controller) (i : CycleIn) : Controller :=
  if s.reflowStatus = REFLOW_STATUS_ON then
    if i.now - s.windowStartTime > windowSize then
      { s with output := i.pidOut,
               windowStartTime := s.windowStartTime + windowSize,
               ssr := decide ((((i.now - (s.windowStartTime + windowSize) : Nat)) : Int) < i.pidOut) }
    else
      { s with output := i.pidOut,
               ssr := decide ((((i.now - s.windowStartTime : Nat)) : Int) < i.pidOut) }
  else
    { s with ssr := false }

/-- State entering the reflow state machine: sampling and heart-beat blocks
have run. -/
def preSeq (s : Controller) (i : CycleIn) : Controller :=
  checkStep (sensorStep s i) i

/-- State entering the cross-cutting switch handling: the reflow state
machine has run. -/
def midSeq (s : Controller) (i : CycleIn) : Controller :=
  seqStep (preSeq s i) i

/-- State entering the SSR control block at the end of the cycle. -/
def preSSR (s : Controller) (i : CycleIn) : Controller :=
  debouncePhase (switchHandle (midSeq s i)) i

/-- One full iteration of `loop()` (lines 450-956). -/
def loopStep (s : Controller) (i : CycleIn) : Controller :=
  ssrPhase (preSSR s i) i

/-- Profile successor implemented by the `SWITCH_2` branch of lines 853-880:
LEAD_FREE → LEADED → BAKE → LEAD_FREE. -/
def nextProfile : reflowProfile_t → reflowProfile_t
  | REFLOW_PROFILE_LEADFREE => REFLOW_PROFILE_LEADED
  | REFLOW_PROFILE_LEADED => REFLOW_PROFILE_BAKE
  | REFLOW_PROFILE_BAKE => REFLOW_PROFILE_LEADFREE

/-- EEPROM byte stored for each profile (lines 864, 871, 877). -/
def profileCode : reflowProfile_t → Nat
  | REFLOW_PROFILE_LEADFREE => 0
  | REFLOW_PROFILE_LEADED => 1
  | REFLOW_PROFILE_BAKE => 2

/-- The state owned by the switch debounce machine alone: its control state,
the remembered pressed switch (`switchMask`) and the debounce timer
(`lastDebounceTime`). -/
structure DebounceM where
  ds : debounceState_t
  mask : switch_t
  last : Nat
  deriving DecidableEq

/-- One evaluation of the debounce machine of lines 884-934, abstracted over
its three own variables; the second component is the `ValidatedPress` it
writes into `switchStatus` this cycle (`SWITCH_NONE` when none, which is
also the value `switchStatus` holds on entry, line 882). -/
def debounceStepM (d : DebounceM) (now : Nat) (raw : switch_t) : DebounceM × switch_t :=
  match d.ds with
  | DEBOUNCE_STATE_IDLE =>
      if raw ≠ SWITCH_NONE then
        (⟨DEBOUNCE_STATE_CHECK, raw, now⟩, SWITCH_NONE)
      else (⟨DEBOUNCE_STATE_IDLE, d.mask, d.last⟩, SWITCH_NONE)
  | DEBOUNCE_STATE_CHECK =>
      if raw = d.mask then
        if now - d.last > DEBOUNCE_PERIOD_MIN then
          (⟨DEBOUNCE_STATE_RELEASE, d.mask, d.last⟩, d.mask)
        else (d, SWITCH_NONE)
      else (⟨DEBOUNCE_STATE_IDLE, d.mask, d.last⟩, SWITCH_NONE)
  | DEBOUNCE_STATE_RELEASE =>
      if raw = SWITCH_NONE then (⟨DEBOUNCE_STATE_IDLE, d.mask, d.last⟩, SWITCH_NONE)
      else (d, SWITCH_NONE)

/-- Run the debounce machine over a list of (sample time, raw reading)
cycles, collecting the validated presses it emits. -/
def debounceRun (d : DebounceM) : List (Nat × switch_t) → DebounceM × List switch_t
  | [] => (d, [])
  | (t, r) :: rest =>
      let p := debounceStepM d t r
      let q := debounceRun p.1 rest
      (q.1, if p.2 = SWITCH_NONE then q.2 else p.2 :: q.2)

/-- The sampling block never touches the pending validated press. -/
@[simp] theorem sensorStep_switchStatus (s : Controller) (i : CycleIn) :
    (sensorStep s i).switchStatus = s.switchStatus := by
  unfold sensorStep; split_ifs <;> rfl

@[simp] theorem sensorStep_reflowProfile (s : Controller) (i : CycleIn) :
    (sensorStep s i).reflowProfile = s.reflowProfile := by
  unfold sensorStep; split_ifs <;> rfl

@[simp] theorem sensorStep_eeprom (s : Controller) (i : CycleIn) :
    (sensorStep s i).eeprom = s.eeprom := by
  unfold sensorStep; split_ifs <;> rfl

/-- The sampling block can only force the status off, never on. -/
theorem sensorStep_status_off (s : Controller) (i : CycleIn)
    (h : s.reflowStatus = REFLOW_STATUS_OFF) :
    (sensorStep s i).reflowStatus = REFLOW_STATUS_OFF := by
  unfold sensorStep; split_ifs <;> simp [h]

/-- The sampling block can only force the state to ERROR, so it keeps ERROR. -/
theorem sensorStep_state_error (s : Controller) (i : CycleIn)
    (h : s.reflowState = REFLOW_STATE_ERROR) :
    (sensorStep s i).reflowState = REFLOW_STATE_ERROR := by
  unfold sensorStep; split_ifs <;> simp [h]

/-- Sampling a faulty mask forces ERROR and OFF (lines 455-480). -/
theorem sensorStep_fault (s : Controller) (i : CycleIn)
    (h1 : i.now > s.nextRead) (h2 : faultCheck i.fault = true) :
    (sensorStep s i).reflowState = REFLOW_STATE_ERROR ∧
    (sensorStep s i).reflowStatus = REFLOW_STATUS_OFF := by
  unfold sensorStep; rw [if_pos h1, if_pos h2]; exact ⟨rfl, rfl⟩

@[simp] theorem checkStep_reflowState (s : Controller) (i : CycleIn) :
    (checkStep s i).reflowState = s.reflowState := by
  unfold checkStep; split_ifs <;> rfl

@[simp] theorem checkStep_reflowStatus (s : Controller) (i : CycleIn) :
    (checkStep s i).reflowStatus = s.reflowStatus := by
  unfold checkStep; split_ifs <;> rfl

@[simp] theorem checkStep_input (s : Controller) (i : CycleIn) :
    (checkStep s i).input = s.input := by
  unfold checkStep; split_ifs <;> rfl

@[simp] theorem checkStep_switchStatus (s : Controller) (i : CycleIn) :
    (checkStep s i).switchStatus = s.switchStatus := by
  unfold checkStep; split_ifs <;> rfl

@[simp] theorem checkStep_reflowProfile (s : Controller) (i : CycleIn) :
    (checkStep s i).reflowProfile = s.reflowProfile := by
  unfold checkStep; split_ifs <;> rfl

@[simp] theorem checkStep_eeprom (s : Controller) (i : CycleIn) :
    (checkStep s i).eeprom = s.eeprom := by
  unfold checkStep; split_ifs <;> rfl

@[simp] theorem seqStep_switchStatus (s : Controller) (i : CycleIn) :
    (seqStep s i).switchStatus = s.switchStatus := by
  unfold seqStep; split <;> (try split_ifs) <;> rfl

@[simp] theorem seqStep_reflowProfile (s : Controller) (i : CycleIn) :
    (seqStep s i).reflowProfile = s.reflowProfile := by
  unfold seqStep; split <;> (try split_ifs) <;> rfl

@[simp] theorem seqStep_eeprom (s : Controller) (i : CycleIn) :
    (seqStep s i).eeprom = s.eeprom := by
  unfold seqStep; split <;> (try split_ifs) <;> rfl

@[simp] theorem debouncePhase_reflowState (s : Controller) (i : CycleIn) :
    (debouncePhase s i).reflowState = s.reflowState := by
  unfold debouncePhase; split <;> (try split_ifs) <;> rfl

@[simp] theorem debouncePhase_reflowStatus (s : Controller) (i : CycleIn) :
    (debouncePhase s i).reflowStatus = s.reflowStatus := by
  unfold debouncePhase; split <;> (try split_ifs) <;> rfl

@[simp] theorem debouncePhase_reflowProfile (s : Controller) (i : CycleIn) :
    (debouncePhase s i).reflowProfile = s.reflowProfile := by
  unfold debouncePhase; split <;> (try split_ifs) <;> rfl

@[simp] theorem debouncePhase_eeprom (s : Controller) (i : CycleIn) :
    (debouncePhase s i).eeprom = s.eeprom := by
  unfold debouncePhase; split <;> (try split_ifs) <;> rfl

@[simp] theorem debouncePhase_windowStartTime (s : Controller) (i : CycleIn) :
    (debouncePhase s i).windowStartTime = s.windowStartTime := by
  unfold debouncePhase; split <;> (try split_ifs) <;> rfl

@[simp] theorem ssrPhase_reflowState (s : Controller) (i : CycleIn) :
    (ssrPhase s i).reflowState = s.reflowState := by
  unfold ssrPhase; split_ifs <;> rfl

@[simp] theorem ssrPhase_reflowStatus (s : Controller) (i : CycleIn) :
    (ssrPhase s i).reflowStatus = s.reflowStatus := by
  unfold ssrPhase; split_ifs <;> rfl

@[simp] theorem ssrPhase_reflowProfile (s : Controller) (i : CycleIn) :
    (ssrPhase s i).reflowProfile = s.reflowProfile := by
  unfold ssrPhase; split_ifs <;> rfl

@[simp] theorem ssrPhase_eeprom (s : Controller) (i : CycleIn) :
    (ssrPhase s i).eeprom = s.eeprom := by
  unfold ssrPhase; split_ifs <;> rfl

/-- While the process is off, the SSR control block (lines 951-955) only
forces the SSR low. -/
theorem ssrPhase_off (s : Controller) (i : CycleIn)
    (h : s.reflowStatus = REFLOW_STATUS_OFF) :
    ssrPhase s i = { s with ssr := false } := by
  unfold ssrPhase; rw [h]; simp

/-- The cross-cutting switch handling cannot switch the process on, and with
the process off it leaves the state unchanged. -/
theorem switchHandle_off (s : Controller) (h : s.reflowStatus = REFLOW_STATUS_OFF) :
    (switchHandle s).reflowStatus = REFLOW_STATUS_OFF ∧
    (switchHandle s).reflowState = s.reflowState := by
  unfold switchHandle; split_ifs <;> simp_all

/-- A consumed `SWITCH_1` press while the process is on cancels the run
(lines 840-852). -/
theorem switchHandle_cancel (s : Controller)
    (h1 : s.switchStatus = SWITCH_1) (h2 : s.reflowStatus = REFLOW_STATUS_ON) :
    (switchHandle s).reflowStatus = REFLOW_STATUS_OFF ∧
    (switchHandle s).reflowState = REFLOW_STATE_IDLE := by
  unfold switchHandle; rw [h1]; simp [h2]

/-- A consumed `SWITCH_1` press while the process is off only clears the
press. -/
theorem switchHandle_s1_off (s : Controller)
    (h1 : s.switchStatus = SWITCH_1) (h2 : s.reflowStatus = REFLOW_STATUS_OFF) :
    switchHandle s = { s with switchStatus := SWITCH_NONE } := by
  unfold switchHandle; rw [h1]; simp [h2]

/-- A consumed `SWITCH_2` press in IDLE cycles the profile and persists the
new code (lines 853-880). -/
theorem switchHandle_s2_idle (s : Controller)
    (h1 : s.switchStatus = SWITCH_2) (h2 : s.reflowState = REFLOW_STATE_IDLE) :
    (switchHandle s).reflowProfile = nextProfile s.reflowProfile ∧
    (switchHandle s).eeprom = profileCode (nextProfile s.reflowProfile) := by
  unfold switchHandle; rw [h1]
  cases h : s.reflowProfile <;> simp [h2, nextProfile, profileCode]

/-- A consumed `SWITCH_2` press outside IDLE is a no-op apart from clearing
the press. -/
theorem switchHandle_s2_keep (s : Controller)
    (h1 : s.switchStatus = SWITCH_2) (h2 : s.reflowState ≠ REFLOW_STATE_IDLE) :
    switchHandle s = { s with switchStatus := SWITCH_NONE } := by
  unfold switchHandle; rw [h1]; simp [h2]

/-- The cross-cutting switch handling either keeps the sequencer state or
resets it to IDLE; it never invents any other state. -/
theorem switchHandle_state_cases (s : Controller) :
    (switchHandle s).reflowState = s.reflowState ∨
    (switchHandle s).reflowState = REFLOW_STATE_IDLE := by
  unfold switchHandle; split_ifs <;> simp

/-- In ERROR with the re-read mask still faulty, the sequencer stays in
ERROR (lines 810-826). -/
theorem seqStep_error_fault (s : Controller) (i : CycleIn)
    (h : s.reflowState = REFLOW_STATE_ERROR) (hf : faultCheck i.fault = true) :
    seqStep s i = { s with fault := i.fault, reflowState := REFLOW_STATE_ERROR } := by
  unfold seqStep; rw [h]; simp [hf]

/-- In ERROR with a fault-free re-read mask, the sequencer returns to IDLE
(lines 827-831). -/
theorem seqStep_error_clear (s : Controller) (i : CycleIn)
    (h : s.reflowState = REFLOW_STATE_ERROR) (hf : faultCheck i.fault = false) :
    seqStep s i = { s with fault := i.fault, reflowState := REFLOW_STATE_IDLE } := by
  unfold seqStep; rw [h]; simp [hf]

/-- Once the process status is OFF after the sequencer has run, the rest of
the cycle keeps the sequencer state, keeps the status OFF and drives the SSR
low. -/
theorem loop_off_of_mid (s : Controller) (i : CycleIn)
    (hO : (midSeq s i).reflowStatus = REFLOW_STATUS_OFF) :
    (loopStep s i).reflowState = (midSeq s i).reflowState ∧
    (loopStep s i).reflowStatus = REFLOW_STATUS_OFF ∧
    (loopStep s i).ssr = false := by
  have hsw := switchHandle_off (midSeq s i) hO
  have hdo : (preSSR s i).reflowStatus = REFLOW_STATUS_OFF := by
    unfold preSSR; simp [hsw.1]
  have hde : (preSSR s i).reflowState = (midSeq s i).reflowState := by
    unfold preSSR; simp [hsw.2]
  rw [loopStep, ssrPhase_off _ _ hdo]
  exact ⟨hde, hdo, rfl⟩

/-- An idle controller at room temperature: every timer is far from expiry,
no press is pending, the process is off. -/
def baseC : Controller :=
  { setpoint := 0, input := 25, output := 0, windowStartTime := 0,
    nextCheck := 1000000, nextRead := 1000000, timerSoak := 0, buzzerPeriod := 0,
    soakTemperatureMax := 200, reflowTemperatureMax := 250, soakMicroPeriod := 9000,
    reflowState := REFLOW_STATE_IDLE, reflowStatus := REFLOW_STATUS_OFF,
    reflowProfile := REFLOW_PROFILE_LEADFREE, debounceState := DEBOUNCE_STATE_IDLE,
    lastDebounceTime := 0, switchStatus := SWITCH_NONE, switchValue := SWITCH_NONE,
    switchMask := SWITCH_NONE, timerSeconds := 0, fault := 0,
    pidTunings := preheatTunings, pidMode := false, eeprom := 0,
    ssr := false, buzzer := false }

/-- A quiet cycle input: early clock, room temperature, clean fault mask,
no switch pressed. -/
def baseI : CycleIn :=
  { now := 0, temp := 25, fault := 0, rawSwitch := SWITCH_NONE, pidOut := 0 }

/-- C1: whenever `reflowStatus` is OFF at the actuator evaluation at the end
of a cycle, the SSR is driven low unconditionally — independent of state,
setpoint, PID output and window position — and the time-proportioning
window logic does not run (the window start is left untouched). -/
theorem C1_actuator_forced_off_when_status_off (s : Controller) (i : CycleIn)
    (h : (loopStep s i).reflowStatus = REFLOW_STATUS_OFF) :
    (loopStep s i).ssr = false ∧
    (loopStep s i).windowStartTime = (preSSR s i).windowStartTime := by
  have hoff : (preSSR s i).reflowStatus = REFLOW_STATUS_OFF := by
    rw [loopStep, ssrPhase_reflowStatus] at h; exact h
  rw [loopStep, ssrPhase_off _ _ hoff]
  exact ⟨rfl, rfl⟩

/-- Witness for C1 at a concrete idle cycle. -/
theorem C1_witness :
    (loopStep baseC baseI).ssr = false ∧
    (loopStep baseC baseI).windowStartTime = (preSSR baseC baseI).windowStartTime :=
  C1_actuator_forced_off_when_status_off baseC baseI (by decide)

/-- C2: in any state, a sampling cycle whose fresh fault mask has one of the
eight listed fault bits set ends with the sequencer in ERROR, the process
status OFF and the SSR driven low. -/
theorem C2_fault_forces_error_off (s : Controller) (i : CycleIn)
    (h1 : i.now > s.nextRead) (h2 : faultCheck i.fault = true) :
    (loopStep s i).reflowState = REFLOW_STATE_ERROR ∧
    (loopStep s i).reflowStatus = REFLOW_STATUS_OFF ∧
    (loopStep s i).ssr = false := by
  obtain ⟨he, ho⟩ := sensorStep_fault s i h1 h2
  have hpe : (preSeq s i).reflowState = REFLOW_STATE_ERROR := by
    unfold preSeq; simp [he]
  have hpo : (preSeq s i).reflowStatus = REFLOW_STATUS_OFF := by
    unfold preSeq; simp [ho]
  have hms : (midSeq s i).reflowState = REFLOW_STATE_ERROR := by
    rw [midSeq, seqStep_error_fault _ _ hpe h2]
  have hmo : (midSeq s i).reflowStatus = REFLOW_STATUS_OFF := by
    rw [midSeq, seqStep_error_fault _ _ hpe h2]; exact hpo
  obtain ⟨hs, ho2, hssr⟩ := loop_off_of_mid s i hmo
  exact ⟨hs.trans hms, ho2, hssr⟩

/-- Witness for C2: an open-circuit fault sampled in a running REFLOW cycle. -/
theorem C2_witness :
    (loopStep { baseC with reflowState := REFLOW_STATE_REFLOW,
                           reflowStatus := REFLOW_STATUS_ON, nextRead := 0 }
              { baseI with now := 5, fault := MAX31856_FAULT_OPEN }).reflowState
      = REFLOW_STATE_ERROR :=
  (C2_fault_forces_error_off _ _ (by decide) (by decide)).1

/-- C3: while in ERROR (with the process off, as every entry into ERROR
forces), a cycle whose fault mask is still faulty stays in ERROR whatever
the clock, switches or temperature do, and the first fault-free mask — and
nothing else — moves the state to IDLE. -/
theorem C3_error_holds_until_clean_sample (s : Controller) (i : CycleIn)
    (h1 : s.reflowState = REFLOW_STATE_ERROR)
    (h2 : s.reflowStatus = REFLOW_STATUS_OFF) :
    (faultCheck i.fault = true → (loopStep s i).reflowState = REFLOW_STATE_ERROR) ∧
    (faultCheck i.fault = false → (loopStep s i).reflowState = REFLOW_STATE_IDLE) := by
  have hpe : (preSeq s i).reflowState = REFLOW_STATE_ERROR := by
    unfold preSeq; simp [sensorStep_state_error s i h1]
  have hpo : (preSeq s i).reflowStatus = REFLOW_STATUS_OFF := by
    unfold preSeq; simp [sensorStep_status_off s i h2]
  constructor
  · intro hf
    have hms : (midSeq s i).reflowState = REFLOW_STATE_ERROR := by
      rw [midSeq, seqStep_error_fault _ _ hpe hf]
    have hmo : (midSeq s i).reflowStatus = REFLOW_STATUS_OFF := by
      rw [midSeq, seqStep_error_fault _ _ hpe hf]; exact hpo
    exact ((loop_off_of_mid s i hmo).1).trans hms
  · intro hf
    have hms : (midSeq s i).reflowState = REFLOW_STATE_IDLE := by
      rw [midSeq, seqStep_error_clear _ _ hpe hf]
    have hmo : (midSeq s i).reflowStatus = REFLOW_STATUS_OFF := by
      rw [midSeq, seqStep_error_clear _ _ hpe hf]; exact hpo
    exact ((loop_off_of_mid s i hmo).1).trans hms

/-- Witness for C3: a still-faulty cycle keeps ERROR, a clean one exits to
IDLE. -/
theorem C3_witness :
    (loopStep { baseC with reflowState := REFLOW_STATE_ERROR }
              { baseI with fault := MAX31856_FAULT_OVUV }).reflowState
      = REFLOW_STATE_ERROR ∧
    (loopStep { baseC with reflowState := REFLOW_STATE_ERROR } baseI).reflowState
      = REFLOW_STATE_IDLE :=
  ⟨(C3_error_holds_until_clean_sample _ _ rfl rfl).1 (by decide),
   (C3_error_holds_until_clean_sample _ _ rfl rfl).2 (by decide)⟩

/-- C5: a consumed START press (`SWITCH_1`) in a cycle where the process
status is still ON when the cross-cutting check runs ends the cycle with the
status OFF and the state forced to IDLE, overriding whatever the sequencer
decided earlier in the same cycle. -/
theorem C5_start_press_cancels_running_process (s : Controller) (i : CycleIn)
    (h1 : s.switchStatus = SWITCH_1)
    (h2 : (midSeq s i).reflowStatus = REFLOW_STATUS_ON) :
    (loopStep s i).reflowStatus = REFLOW_STATUS_OFF ∧
    (loopStep s i).reflowState = REFLOW_STATE_IDLE := by
  have hsw1 : (midSeq s i).switchStatus = SWITCH_1 := by
    unfold midSeq preSeq; simp [h1]
  have hc := switchHandle_cancel (midSeq s i) hsw1 h2
  have hdo : (preSSR s i).reflowStatus = REFLOW_STATUS_OFF := by
    unfold preSSR; simp [hc.1]
  have hde : (preSSR s i).reflowState = REFLOW_STATE_IDLE := by
    unfold preSSR; simp [hc.2]
  rw [loopStep, ssrPhase_off _ _ hdo]
  exact ⟨hdo, hde⟩

/-- Witness for C5: a START press consumed mid-REFLOW at peak temperature,
where the sequencer had just decided REFLOW→COOL, still ends in IDLE/OFF. -/
theorem C5_witness :
    (loopStep { baseC with reflowState := REFLOW_STATE_REFLOW,
                           reflowStatus := REFLOW_STATUS_ON, input := 247,
                           switchStatus := SWITCH_1 } baseI).reflowStatus
      = REFLOW_STATUS_OFF ∧
    (loopStep { baseC with reflowState := REFLOW_STATE_REFLOW,
                           reflowStatus := REFLOW_STATUS_ON, input := 247,
                           switchStatus := SWITCH_1 } baseI).reflowState
      = REFLOW_STATE_IDLE :=
  C5_start_press_cancels_running_process _ _ rfl (by decide)

/-- C8: a consumed SELECT press (`SWITCH_2`) advances the profile one step
in the LEAD_FREE→LEADED→BAKE→LEAD_FREE cycle and persists its code exactly
when the state is IDLE at the cross-cutting check; otherwise profile and
persisted byte are untouched.  Three advances return any profile to where
it started. -/
theorem C8_select_press_cycles_profile (s : Controller) (i : CycleIn)
    (h1 : s.switchStatus = SWITCH_2) :
    ((midSeq s i).reflowState = REFLOW_STATE_IDLE →
       (loopStep s i).reflowProfile = nextProfile s.reflowProfile ∧
       (loopStep s i).eeprom = profileCode (nextProfile s.reflowProfile)) ∧
    ((midSeq s i).reflowState ≠ REFLOW_STATE_IDLE →
       (loopStep s i).reflowProfile = s.reflowProfile ∧
       (loopStep s i).eeprom = s.eeprom) ∧
    (∀ p, nextProfile (nextProfile (nextProfile p)) = p) := by
  have hsw : (midSeq s i).switchStatus = SWITCH_2 := by
    unfold midSeq preSeq; simp [h1]
  have hmp : (midSeq s i).reflowProfile = s.reflowProfile := by
    unfold midSeq preSeq; simp
  have hme : (midSeq s i).eeprom = s.eeprom := by
    unfold midSeq preSeq; simp
  refine ⟨fun hid => ?_, fun hid => ?_, fun p => by cases p <;> rfl⟩
  · have h := switchHandle_s2_idle (midSeq s i) hsw hid
    constructor
    · rw [loopStep]; unfold preSSR; simp [h.1, hmp]
    · rw [loopStep]; unfold preSSR; simp [h.2, hmp]
  · have h := switchHandle_s2_keep (midSeq s i) hsw hid
    rw [loopStep]; unfold preSSR; rw [h]
    constructor
    · simpa using hmp
    · simpa using hme

/-- Witness for C8: a SELECT press in IDLE moves LEAD_FREE to LEADED and
stores 1; a SELECT press during BAKE changes nothing. -/
theorem C8_witness :
    ((loopStep { baseC with switchStatus := SWITCH_2 } baseI).reflowProfile
        = REFLOW_PROFILE_LEADED ∧
     (loopStep { baseC with switchStatus := SWITCH_2 } baseI).eeprom = 1) ∧
    ((loopStep { baseC with reflowState := REFLOW_STATE_BAKE,
                            reflowStatus := REFLOW_STATUS_ON,
                            switchStatus := SWITCH_2 } baseI).reflowProfile
        = REFLOW_PROFILE_LEADFREE ∧
     (loopStep { baseC with reflowState := REFLOW_STATE_BAKE,
                            reflowStatus := REFLOW_STATUS_ON,
                            switchStatus := SWITCH_2 } baseI).eeprom = 0) :=
  ⟨(C8_select_press_cycles_profile _ baseI rfl).1 (by decide),
   (C8_select_press_cycles_profile _ baseI rfl).2.1 (by decide)⟩

/-- C10: a START press consumed in IDLE below the room threshold starts a
run — the state becomes PREHEAT (reflow profiles) or BAKE — but the process
status stays OFF for the whole starting cycle, so the cross-cutting cancel
check does nothing and the SSR stays low. -/
theorem C10_start_cycle_keeps_status_off (s : Controller) (i : CycleIn)
    (h1 : (preSeq s i).reflowState = REFLOW_STATE_IDLE)
    (h2 : s.switchStatus = SWITCH_1)
    (h3 : (preSeq s i).input < TEMPERATURE_ROOM)
    (h4 : (preSeq s i).reflowStatus = REFLOW_STATUS_OFF) :
    ((loopStep s i).reflowState = REFLOW_STATE_PREHEAT ∨
       (loopStep s i).reflowState = REFLOW_STATE_BAKE) ∧
    (loopStep s i).reflowStatus = REFLOW_STATUS_OFF ∧
    (loopStep s i).ssr = false := by
  have hsw : (preSeq s i).switchStatus = SWITCH_1 := by
    unfold preSeq; simp [h2]
  have hnge : ¬ ((preSeq s i).input ≥ TEMPERATURE_ROOM) := Int.not_le.mpr h3
  have hm : ((midSeq s i).reflowState = REFLOW_STATE_PREHEAT ∨
      (midSeq s i).reflowState = REFLOW_STATE_BAKE) ∧
      (midSeq s i).reflowStatus = REFLOW_STATUS_OFF := by
    by_cases hb : (preSeq s i).reflowProfile = REFLOW_PROFILE_BAKE
    · unfold midSeq seqStep
      simp [h1, hsw, hnge, hb, h4]
    · by_cases hlf : (preSeq s i).reflowProfile = REFLOW_PROFILE_LEADFREE
      · unfold midSeq seqStep
        simp [h1, hsw, hnge, hb, hlf, h4]
      · unfold midSeq seqStep
        simp [h1, hsw, hnge, hb, hlf, h4]
  obtain ⟨hs, ho2, hssr⟩ := loop_off_of_mid s i hm.2
  rcases hm.1 with h | h
  · exact ⟨Or.inl (hs.trans h), ho2, hssr⟩
  · exact ⟨Or.inr (hs.trans h), ho2, hssr⟩

/-- Witness for C10: pressing START in a cool idle controller enters
PREHEAT with the status still OFF and the SSR low. -/
theorem C10_witness :
    ((loopStep { baseC with switchStatus := SWITCH_1 } baseI).reflowState
        = REFLOW_STATE_PREHEAT ∨
     (loopStep { baseC with switchStatus := SWITCH_1 } baseI).reflowState
        = REFLOW_STATE_BAKE) ∧
    (loopStep { baseC with switchStatus := SWITCH_1 } baseI).reflowStatus
      = REFLOW_STATUS_OFF ∧
    (loopStep { baseC with switchStatus := SWITCH_1 } baseI).ssr = false :=
  C10_start_cycle_keeps_status_off _ baseI (by decide) rfl (by decide) (by decide)

/-- C9: in IDLE the over-temperature check has priority — a measured
temperature at or above the room threshold moves the sequencer to TOO_HOT
and no cycle starting from IDLE can end in PREHEAT or BAKE unless the
temperature was below the threshold; TOO_HOT returns to IDLE exactly when
the temperature is strictly below the threshold. -/
theorem C9_too_hot_priority_over_start (s : Controller) (i : CycleIn) :
    ((preSeq s i).reflowState = REFLOW_STATE_IDLE →
       (preSeq s i).input ≥ TEMPERATURE_ROOM →
       (midSeq s i).reflowState = REFLOW_STATE_TOO_HOT) ∧
    ((preSeq s i).reflowState = REFLOW_STATE_IDLE →
       ((loopStep s i).reflowState = REFLOW_STATE_PREHEAT ∨
          (loopStep s i).reflowState = REFLOW_STATE_BAKE) →
       (preSeq s i).input < TEMPERATURE_ROOM) ∧
    ((preSeq s i).reflowState = REFLOW_STATE_TOO_HOT →
       ((midSeq s i).reflowState = REFLOW_STATE_IDLE ↔
          (preSeq s i).input < TEMPERATURE_ROOM)) := by
  refine ⟨fun hid hhot => ?_, fun hid hrun => ?_, fun hth => ?_⟩
  · unfold midSeq seqStep; simp [hid, hhot]
  · by_contra hlt
    have hge : (preSeq s i).input ≥ TEMPERATURE_ROOM := Int.not_lt.mp hlt
    have hm : (midSeq s i).reflowState = REFLOW_STATE_TOO_HOT := by
      unfold midSeq seqStep; simp [hid, hge]
    have hl : (loopStep s i).reflowState = (switchHandle (midSeq s i)).reflowState := by
      rw [loopStep]; unfold preSSR; simp
    rcases switchHandle_state_cases (midSeq s i) with hc | hc <;>
      rw [hl, hc] at hrun
    · rw [hm] at hrun
      rcases hrun with h | h <;> exact absurd h (by decide)
    · rcases hrun with h | h <;> exact absurd h (by decide)
  · constructor
    · intro hres
      by_contra hnl
      have hmr : (midSeq s i).reflowState = REFLOW_STATE_TOO_HOT := by
        unfold midSeq seqStep; simp [hth, hnl]
      rw [hmr] at hres; exact absurd hres (by decide)
    · intro hc
      unfold midSeq seqStep; simp [hth, hc]

/-- Witness for C9: at 60 degrees an idle controller with a pending START
press goes TOO_HOT; a TOO_HOT controller at 25 degrees returns to IDLE. -/
theorem C9_witness :
    (midSeq { baseC with input := 60, switchStatus := SWITCH_1 } baseI).reflowState
      = REFLOW_STATE_TOO_HOT ∧
    (midSeq { baseC with reflowState := REFLOW_STATE_TOO_HOT } baseI).reflowState
      = REFLOW_STATE_IDLE :=
  ⟨(C9_too_hot_priority_over_start _ baseI).1 (by decide) (by decide),
   ((C9_too_hot_priority_over_start _ baseI).2.2 (by decide)).mpr (by decide)⟩

/-- C7: in SOAK, each sub-timer expiry steps the setpoint by the fixed step;
when the stepped value exceeds the profile's soak-max the setpoint is set to
the profile's reflow-max (never left at the overshoot value), the reflow
gains are installed and the state moves to REFLOW; between expiries the
setpoint is untouched. -/
theorem C7_soak_stepping_and_clamp (s : Controller) (i : CycleIn)
    (h : s.reflowState = REFLOW_STATE_SOAK) :
    (i.now > s.timerSoak →
       (s.setpoint + SOAK_TEMPERATURE_STEP > s.soakTemperatureMax →
          (seqStep s i).setpoint = s.reflowTemperatureMax ∧
          (seqStep s i).reflowState = REFLOW_STATE_REFLOW ∧
          (seqStep s i).pidTunings = reflowTunings) ∧
       (¬ s.setpoint + SOAK_TEMPERATURE_STEP > s.soakTemperatureMax →
          (seqStep s i).setpoint = s.setpoint + SOAK_TEMPERATURE_STEP ∧
          (seqStep s i).reflowState = REFLOW_STATE_SOAK ∧
          (seqStep s i).pidTunings = s.pidTunings)) ∧
    (¬ i.now > s.timerSoak →
       (seqStep s i).setpoint = s.setpoint ∧
       (seqStep s i).reflowState = REFLOW_STATE_SOAK) := by
  refine ⟨fun ht => ⟨fun hc => ?_, fun hc => ?_⟩, fun ht => ?_⟩
  · unfold seqStep; simp [h, ht, hc]
  · unfold seqStep; simp [h, ht, hc]
  · unfold seqStep; simp [h, ht]

/-- A mid-soak controller whose sub-timer has expired. -/
def soakCtr : Controller :=
  { baseC with reflowState := REFLOW_STATE_SOAK, reflowStatus := REFLOW_STATUS_ON,
               setpoint := 160, input := 155, timerSoak := 0,
               pidTunings := soakTunings }

/-- The cycle input observing that expiry 5 ms after the old deadline. -/
def soakCyc : CycleIn := { baseI with now := 5, temp := 155 }

/-- Witness for C7: at the last soak step (setpoint 200 = soak-max for
lead-free), the next expiry clamps the setpoint to 250 and enters REFLOW. -/
theorem C7_witness :
    (seqStep { soakCtr with setpoint := 200 } soakCyc).setpoint
      = { soakCtr with setpoint := 200 }.reflowTemperatureMax ∧
    (seqStep { soakCtr with setpoint := 200 } soakCyc).reflowState
      = REFLOW_STATE_REFLOW ∧
    (seqStep { soakCtr with setpoint := 200 } soakCyc).pidTunings = reflowTunings :=
  ((C7_soak_stepping_and_clamp _ soakCyc rfl).1 (by decide)).1 (by decide)

/-- C6 (amended): the relay-window deadline re-arms by adding one
`windowSize` to the previous `windowStartTime` (deadline-based, drift-free),
while the soak sub-timer re-arms to the current time plus `soakMicroPeriod`
(now-based), not to the previous deadline plus the period. -/
theorem C6_deadline_rearm (s : Controller) (i : CycleIn) :
    (s.reflowStatus = REFLOW_STATUS_ON → windowSize < i.now - s.windowStartTime →
       (ssrPhase s i).windowStartTime = s.windowStartTime + windowSize) ∧
    (s.reflowStatus = REFLOW_STATUS_ON → ¬ windowSize < i.now - s.windowStartTime →
       (ssrPhase s i).windowStartTime = s.windowStartTime) ∧
    (s.reflowState = REFLOW_STATE_SOAK → i.now > s.timerSoak →
       (seqStep s i).timerSoak = i.now + s.soakMicroPeriod) := by
  refine ⟨fun h1 h2 => ?_, fun h1 h2 => ?_, fun h1 h2 => ?_⟩
  · unfold ssrPhase; simp [h1, h2]
  · unfold ssrPhase; simp [h1, h2]
  · unfold seqStep; simp only [h1]
    rw [if_pos h2]; split_ifs <;> rfl

/-- Counterexample for C6 as stated: at a concrete soak expiry observed 5 ms
late, the new deadline is `now + soakMicroPeriod` (9005) and differs from
the previous deadline plus the period (9000). -/
theorem C6_counterexample :
    soakCyc.now > soakCtr.timerSoak ∧
    (seqStep soakCtr soakCyc).timerSoak = soakCyc.now + soakCtr.soakMicroPeriod ∧
    (seqStep soakCtr soakCyc).timerSoak ≠ soakCtr.timerSoak + soakCtr.soakMicroPeriod := by
  decide

/-- Witness for C6 (amended) at concrete cycles: the window advances from 0
to exactly `windowSize` when read at 2500 ms, and the soak re-arm lands on
`now + soakMicroPeriod`. -/
theorem C6_witness :
    (ssrPhase { baseC with reflowStatus := REFLOW_STATUS_ON }
        { baseI with now := 2500 }).windowStartTime = windowSize ∧
    (seqStep soakCtr soakCyc).timerSoak = soakCyc.now + soakCtr.soakMicroPeriod :=
  ⟨(C6_deadline_rearm _ _).1 rfl (by decide),
   (C6_deadline_rearm soakCtr soakCyc).2.2 rfl (by decide)⟩

/-- The debounce machine embedded in the main loop agrees with the
standalone machine `debounceStepM`: given the cleared `switchStatus` the
loop guarantees on entry (line 882), the loop's debounce block updates its
three variables and `switchStatus` exactly as the standalone machine does. -/
theorem debouncePhase_spec (s : Controller) (i : CycleIn)
    (h : s.switchStatus = SWITCH_NONE) :
    (debouncePhase s i).debounceState
        = (debounceStepM ⟨s.debounceState, s.switchMask, s.lastDebounceTime⟩ i.now i.rawSwitch).1.ds ∧
    (debouncePhase s i).switchMask
        = (debounceStepM ⟨s.debounceState, s.switchMask, s.lastDebounceTime⟩ i.now i.rawSwitch).1.mask ∧
    (debouncePhase s i).lastDebounceTime
        = (debounceStepM ⟨s.debounceState, s.switchMask, s.lastDebounceTime⟩ i.now i.rawSwitch).1.last ∧
    (debouncePhase s i).switchStatus
        = (debounceStepM ⟨s.debounceState, s.switchMask, s.lastDebounceTime⟩ i.now i.rawSwitch).2 := by
  cases hd : s.debounceState <;>
    unfold debouncePhase debounceStepM <;> rw [hd] <;> split_ifs <;> simp_all

/-- While awaiting release, a machine that keeps reading the pressed switch
emits nothing and never changes. -/
theorem debounceRun_release (m : switch_t) (l : Nat) (s : switch_t)
    (hs : s ≠ SWITCH_NONE) (ts : List Nat) :
    debounceRun ⟨DEBOUNCE_STATE_RELEASE, m, l⟩ (ts.map (fun t => (t, s)))
      = (⟨DEBOUNCE_STATE_RELEASE, m, l⟩, []) := by
  induction ts with
  | nil => rfl
  | cons t ts ih => simp [debounceRun, debounceStepM, hs, ih]

/-- From CHECKING with the press recorded at `t0`, a run of cycles that keep
reading the same switch emits exactly one press — the remembered one — as
soon as some cycle occurs strictly more than `DEBOUNCE_PERIOD_MIN` after
`t0`, and nothing at all otherwise. -/
theorem debounceRun_check (s : switch_t) (t0 : Nat) (hs : s ≠ SWITCH_NONE)
    (ts : List Nat) :
    (debounceRun ⟨DEBOUNCE_STATE_CHECK, s, t0⟩ (ts.map (fun t => (t, s)))).2
      = if ts.any (fun t => t0 + DEBOUNCE_PERIOD_MIN < t) then [s] else [] := by
  induction ts with
  | nil => rfl
  | cons t ts ih =>
    by_cases h : t0 + DEBOUNCE_PERIOD_MIN < t
    · have h' : t - t0 > DEBOUNCE_PERIOD_MIN := by omega
      simp [debounceRun, debounceStepM, h', hs, h,
            debounceRun_release s t0 s hs ts]
    · have h' : ¬ (t - t0 > DEBOUNCE_PERIOD_MIN) := by omega
      simp [debounceRun, debounceStepM, h', ih, h]

/-- C4 (amended): starting from debounce IDLE, a raw input that reads the
same non-NONE switch at the cycle times `t0, ts…` produces exactly one
ValidatedPress — equal to the remembered input — iff some cycle samples it
strictly more than `DEBOUNCE_PERIOD_MIN` (100 ms) after it was first
recorded, and produces none otherwise; in particular an input asserted for
strictly less than 100 ms never produces a press, and however long the
input stays asserted, never more than one press is produced before
release. -/
theorem C4_debounce_exactly_one_press (s m0 : switch_t) (l0 t0 : Nat)
    (ts : List Nat) (hs : s ≠ SWITCH_NONE) :
    (debounceRun ⟨DEBOUNCE_STATE_IDLE, m0, l0⟩
        ((t0, s) :: ts.map (fun t => (t, s)))).2
      = if ts.any (fun t => t0 + DEBOUNCE_PERIOD_MIN < t) then [s] else [] := by
  simp [debounceRun, debounceStepM, hs, debounceRun_check s t0 hs ts]

/-- Counterexample for C4 as stated: an input asserted continuously for
exactly 100 ms — which is "at least 100 ms" — sampled at 0, 50 and 100 ms
and released afterwards, produces no ValidatedPress at all, because line
910 requires the elapsed time to strictly exceed `DEBOUNCE_PERIOD_MIN`. -/
theorem C4_counterexample :
    (debounceRun ⟨DEBOUNCE_STATE_IDLE, SWITCH_NONE, 0⟩
        [(0, SWITCH_1), (50, SWITCH_1), (100, SWITCH_1), (150, SWITCH_NONE)]).2
      = [] := by
  decide

/-- Witness for C4 (amended): a press first seen at 0 ms and still asserted
at 101 ms yields exactly one validated `SWITCH_1` press. -/
theorem C4_witness :
    (debounceRun ⟨DEBOUNCE_STATE_IDLE, SWITCH_NONE, 0⟩
        ((0, SWITCH_1) :: [101].map (fun t => (t, SWITCH_1)))).2 = [SWITCH_1] := by
  have h := C4_debounce_exactly_one_press SWITCH_1 SWITCH_NONE 0 0 [101] (by decide)
  simpa using h

theorem off_ne_on : REFLOW_STATUS_OFF ≠ REFLOW_STATUS_ON := by decide

/-- Reachability invariant of the firmware: the process status is ON only
while the sequencer is in one of the running states (PREHEAT, SOAK, REFLOW,
COOL, BAKE); equivalently IDLE, COMPLETE, TOO_HOT and ERROR always carry
the status OFF.  It holds at power-up (`setup()` zero-initialises both to
IDLE/OFF) and `loopStep_inv` below shows every cycle preserves it, which
justifies the status-OFF hypotheses used for the ERROR and IDLE claims. -/
def statusOnInv (s : Controller) : Prop :=
  s.reflowStatus = REFLOW_STATUS_ON →
    (s.reflowState = REFLOW_STATE_PREHEAT ∨ s.reflowState = REFLOW_STATE_SOAK ∨
     s.reflowState = REFLOW_STATE_REFLOW ∨ s.reflowState = REFLOW_STATE_COOL ∨
     s.reflowState = REFLOW_STATE_BAKE)

theorem seqStep_inv (s : Controller) (i : CycleIn) (h : statusOnInv s) :
    statusOnInv (seqStep s i) := by
  intro hON
  cases hm : s.reflowState <;>
    (unfold seqStep at hON ⊢; rw [hm] at hON ⊢) <;>
    (try dsimp only at hON ⊢) <;>
    (try split_ifs at hON ⊢) <;>
    (try dsimp only at hON ⊢) <;>
    first
      | exact absurd (h hON) (by rw [hm]; decide)
      | exact absurd hON off_ne_on
      | (rw [hm]; decide)
      | simp

theorem sensorStep_inv (s : Controller) (i : CycleIn) (h : statusOnInv s) :
    statusOnInv (sensorStep s i) := by
  intro hON
  unfold sensorStep at hON ⊢
  split_ifs at hON ⊢ <;> (try dsimp only at hON ⊢) <;>
    first
      | exact absurd hON off_ne_on
      | exact h hON

theorem checkStep_inv (s : Controller) (i : CycleIn) (h : statusOnInv s) :
    statusOnInv (checkStep s i) := by
  intro hON
  unfold checkStep at hON ⊢
  split_ifs at hON ⊢ <;> (try dsimp only at hON ⊢) <;> exact h hON

theorem switchHandle_inv (s : Controller) (h : statusOnInv s) :
    statusOnInv (switchHandle s) := by
  intro hON
  unfold switchHandle at hON ⊢
  split_ifs at hON ⊢ <;> (try dsimp only at hON ⊢) <;>
    first
      | exact absurd hON off_ne_on
      | exact h hON

/-- Every cycle of `loop()` preserves the status-only-on-while-running
invariant. -/
theorem loopStep_inv (s : Controller) (i : CycleIn) (h : statusOnInv s) :
    statusOnInv (loopStep s i) := by
  have h2 := switchHandle_inv _ (seqStep_inv _ i (checkStep_inv _ i (sensorStep_inv _ i h)))
  intro hON
  rw [loopStep] at hON ⊢
  unfold preSSR at hON ⊢
  rw [ssrPhase_reflowStatus, debouncePhase_reflowStatus] at hON
  rw [ssrPhase_reflowState, debouncePhase_reflowState]
  exact h2 hON
